import Mathlib

/-!
# Verification of the IRac vendor-neutral A/C façade (`src/IRac.cpp`)

Shallow embedding of the common-state data model, the normalise/toggle
pipeline, the dispatcher, and the string parsers/renderers of the
`LightIRremoteESP8266` repository, together with proofs about the
properties its specification states.

Machine integers (`int16_t`) are modelled as `Int`; C `float` values are
modelled as `ℚ` (the spec guarantees no NaN); C strings as `String`.
-/

namespace IRacSpec

/-- The protocol tag (`decode_type_t` of the repository).  Only the members
mentioned by `IRac.cpp` are listed; `UNKNOWN` stands for every other value. -/
inductive decode_type_t : Type
  | UNKNOWN
  | AIRTON | AIRWELL | AMCOR | ARGO | BOSCH144 | CARRIER_AC64
  | COOLIX | CORONA_AC
  | DAIKIN | DAIKIN128 | DAIKIN152 | DAIKIN160 | DAIKIN176 | DAIKIN2
  | DAIKIN216 | DAIKIN64
  | DELONGHI_AC | ECOCLIM | ELECTRA_AC | FUJITSU_AC | GOODWEATHER | GREE
  | HAIER_AC | HAIER_AC160 | HAIER_AC176 | HAIER_AC_YRW02
  | HITACHI_AC | HITACHI_AC1 | HITACHI_AC264 | HITACHI_AC296
  | HITACHI_AC344 | HITACHI_AC424
  | KELON | KELVINATOR | LG | LG2 | MIDEA | MIRAGE
  | MITSUBISHI_AC | MITSUBISHI112 | MITSUBISHI136
  | MITSUBISHI_HEAVY_88 | MITSUBISHI_HEAVY_152
  | NEOCLIMA | PANASONIC_AC | PANASONIC_AC32 | RHOSS | SAMSUNG_AC
  | SANYO_AC | SANYO_AC88 | SHARP_AC | TCL112AC | TECHNIBEL_AC | TECO
  | TEKNOPOINT | TOSHIBA_AC | TRANSCOLD | TROTEC | TROTEC_3550 | TRUMA
  | VESTEL_AC | VOLTAS | YORK | WHIRLPOOL_AC
  deriving DecidableEq, Repr

/-- Embeds `stdAc::opmode_t`. -/
inductive opmode_t : Type
  | kOff | kAuto | kCool | kHeat | kDry | kFan
  deriving DecidableEq, Repr

/-- Embeds `stdAc::fanspeed_t`. -/
inductive fanspeed_t : Type
  | kAuto | kMin | kLow | kMedium | kHigh | kMax | kMediumHigh
  deriving DecidableEq, Repr

/-- Embeds `stdAc::swingv_t`. -/
inductive swingv_t : Type
  | kOff | kAuto | kHighest | kHigh | kUpperMiddle | kMiddle | kLow | kLowest
  deriving DecidableEq, Repr

/-- Embeds `stdAc::swingh_t`. -/
inductive swingh_t : Type
  | kOff | kAuto | kLeftMax | kLeft | kMiddle | kRight | kRightMax | kWide
  deriving DecidableEq, Repr

/-- Embeds `stdAc::ac_command_t`. -/
inductive ac_command_t : Type
  | kControlCommand | kSensorTempReport | kTimerCommand | kConfigCommand
  deriving DecidableEq, Repr

/-- Modelled from the spec: the numeric value of
`mirage_ac_remote_model_t::KKG29AC1` (the model enums live in headers
outside `src/`); only its identity is used by `handleToggles`. -/
def KKG29AC1 : Int := 2

/-- Modelled from the spec: the numeric value of
`panasonic_ac_remote_model_t::kPanasonicCkp`; only its identity is used by
`handleToggles`. -/
def kPanasonicCkp : Int := 5

/-- Embeds `stdAc::state_t`, the Common State (§3.1 of the spec).  The defaults are
the ones of the spec's table (the struct's default member initialisers live
in a header outside `src/`). -/
structure state_t : Type where
  protocol : decode_type_t := .UNKNOWN
  model : Int := 1
  power : Bool := false
  mode : opmode_t := .kAuto
  degrees : ℚ := 25
  celsius : Bool := true
  fanspeed : fanspeed_t := .kAuto
  swingv : swingv_t := .kOff
  swingh : swingh_t := .kOff
  quiet : Bool := false
  turbo : Bool := false
  econo : Bool := false
  light : Bool := false
  filter : Bool := false
  clean : Bool := false
  beep : Bool := false
  sleep : Int := -1
  clock : Int := -1
  command : ac_command_t := .kControlCommand
  sensorTemperature : ℚ := 25
  iFeel : Bool := false
  deriving DecidableEq, Repr

/-- Modelled from the spec: `fahrenheitToCelsius` of `IRutils` (outside
`src/`), "the standard Fahrenheit→Celsius formula". -/
def fahrenheitToCelsius (deg : ℚ) : ℚ := (deg - 32) * 5 / 9

/-- Embeds `IRac::cleanState` (`src/IRac.cpp:431`): force power off when the mode
is off. -/
def cleanState (state : state_t) : state_t :=
  if state.mode = opmode_t.kOff then { state with power := false } else state

/-- Embeds `IRac::handleToggles` (`src/IRac.cpp:444`): rewrite the edge-triggered
fields of `desired` against the previous state.  The C++ `switch`
fall-throughs (MIDEA into the swingv rule, KELON into the power rule) are
written out explicitly. -/
def handleToggles (desired : state_t) (prev : Option state_t) : state_t :=
  match prev with
  | none => desired
  | some p =>
    if desired.protocol = p.protocol ∧ desired.model = p.model then
      match desired.protocol with
      | .COOLIX | .TRANSCOLD =>
        { desired with
          swingv := if (desired.swingv = swingv_t.kOff) ≠ (p.swingv = swingv_t.kOff)
                    then swingv_t.kAuto else swingv_t.kOff,
          turbo := xor desired.turbo p.turbo,
          light := xor desired.light p.light,
          clean := xor desired.clean p.clean,
          sleep := if (0 ≤ desired.sleep) ≠ (0 ≤ p.sleep) then 0 else -1 }
      | .DAIKIN128 =>
        { desired with
          power := xor desired.power p.power,
          light := xor desired.light p.light }
      | .ELECTRA_AC =>
        { desired with light := xor desired.light p.light }
      | .FUJITSU_AC =>
        { desired with
          turbo := xor desired.turbo p.turbo,
          econo := xor desired.econo p.econo }
      | .MIDEA =>
        { desired with
          turbo := xor desired.turbo p.turbo,
          econo := xor desired.econo p.econo,
          light := xor desired.light p.light,
          clean := xor desired.clean p.clean,
          swingv := if (desired.swingv = swingv_t.kOff) ≠ (p.swingv = swingv_t.kOff)
                    then swingv_t.kAuto else swingv_t.kOff }
      | .CORONA_AC | .HITACHI_AC344 | .HITACHI_AC424 =>
        { desired with
          swingv := if (desired.swingv = swingv_t.kOff) ≠ (p.swingv = swingv_t.kOff)
                    then swingv_t.kAuto else swingv_t.kOff }
      | .SHARP_AC =>
        { desired with
          light := xor desired.light p.light,
          swingv := if (desired.swingv = swingv_t.kOff) ≠ (p.swingv = swingv_t.kOff)
                    then swingv_t.kAuto else swingv_t.kOff }
      | .KELON =>
        { desired with
          swingv := if (desired.swingv = swingv_t.kOff) ≠ (p.swingv = swingv_t.kOff)
                    then swingv_t.kAuto else swingv_t.kOff,
          power := xor desired.power p.power }
      | .AIRWELL | .DAIKIN64 | .PANASONIC_AC32 | .WHIRLPOOL_AC =>
        { desired with power := xor desired.power p.power }
      | .MIRAGE =>
        { desired with
          light := if desired.model = KKG29AC1
                   then xor desired.light p.light else desired.light,
          clean := xor desired.clean p.clean }
      | .PANASONIC_AC =>
        { desired with
          power := if desired.model = kPanasonicCkp
                   then xor desired.power p.power else desired.power }
      | .SAMSUNG_AC =>
        { desired with
          beep := xor desired.beep p.beep,
          clean := xor desired.clean p.clean }
      | _ => desired
    else desired

/-- Embeds `IRac::isProtocolSupported` (`src/IRac.cpp:153`).  The `#if SEND_x`
guards are resolved with the build configuration of this Light fork
(modelled from the spec: "the set is defined at build-time by the enabled
vendor drivers" — the source includes and dispatches exactly the LG and
RHOSS drivers, so `SEND_LG` and `SEND_RHOSS` are enabled and every other
`SEND_x` flag is disabled). -/
def isProtocolSupported (protocol : decode_type_t) : Bool :=
  match protocol with
  | .LG | .LG2 | .RHOSS => true
  | _ => false

/-- The arguments the dispatcher hands to a vendor driver: the setter
sequence of `IRac::lg` (`src/IRac.cpp:361`) resp. `IRac::rhoss`
(`src/IRac.cpp:405`), recorded instead of performed (the drivers are
external collaborators). -/
inductive VendorCall : Type
  | lgCall (model : Int) (isOn : Bool) (mode : opmode_t) (degrees : ℚ)
      (fan : fanspeed_t) (swingv : swingv_t) (swingv_prev : swingv_t)
      (swingh : swingh_t) (light : Bool)
  | rhossCall (isOn : Bool) (mode : opmode_t) (degrees : ℚ)
      (fan : fanspeed_t) (swing : swingv_t)
  deriving DecidableEq, Repr

/-- The `degC` local of `IRac::sendAc` (`src/IRac.cpp:581`): convert the
temperature from Fahrenheit to Celsius unless already in Celsius mode. -/
def degC (desired : state_t) : ℚ :=
  if desired.celsius then desired.degrees else fahrenheitToCelsius desired.degrees

/-- The `sensorTempC` local of `IRac::sendAc` (`src/IRac.cpp:585`): the C
condition is the truthiness of `desired.sensorTemperature` (non-zero),
exactly as written in the source. -/
def sensorTempC (desired : state_t) : ℚ :=
  if desired.sensorTemperature ≠ 0 then desired.sensorTemperature
  else fahrenheitToCelsius desired.sensorTemperature

/-- The `send` local of `IRac::sendAc` (`src/IRac.cpp:589`): the state that
is dispatched to the vendor driver. -/
def resolvedSend (desired : state_t) (prev : Option state_t) : state_t :=
  handleToggles (cleanState desired) prev

/-- The `prev_swingv` local of `IRac::sendAc` (`src/IRac.cpp:597`). -/
def prev_swingv (prev : Option state_t) : swingv_t :=
  match prev with
  | some p => p.swingv
  | none => swingv_t.kOff

/-- The per-vendor dispatch switch of `IRac::sendAc`
(`src/IRac.cpp:607`), factored over the already-resolved `send` state, the
converted temperature and the pointer-safe previous vertical swing.  Note
the LG arm hands `send.degrees` (raw) and the RHOSS arm hands the
converted `degreesC`, as in the source. -/
def vendorDispatch (send : state_t) (degreesC : ℚ) (pv : swingv_t) :
    Bool × Option VendorCall :=
  match send.protocol with
  | .LG | .LG2 =>
      (true, some (VendorCall.lgCall send.model send.power send.mode
        send.degrees send.fanspeed send.swingv pv send.swingh send.light))
  | .RHOSS =>
      (true, some (VendorCall.rhossCall send.power send.mode degreesC
        send.fanspeed send.swingv))
  | _ => (false, none)

/-- Embeds `IRac::sendAc(const stdAc::state_t, const stdAc::state_t*)`
(`src/IRac.cpp:579`): the normalise/toggle pipeline followed by the
per-vendor dispatch switch.  Returns the boolean result together with the
driver invocation made, if any. -/
def sendAcState (desired : state_t) (prev : Option state_t) :
    Bool × Option VendorCall :=
  vendorDispatch (resolvedSend desired prev) (degC desired) (prev_swingv prev)

/-- The mutable state of an `IRac` object: the editable `next` state and
the last-sent `_prev` state (§3.2 of the spec; the pin/polarity/modulation
attributes do not influence any claim and are omitted). -/
structure IRacState : Type where
  next : state_t
  _prev : state_t
  deriving DecidableEq, Repr

/-- Embeds `IRac::markAsSent` (`src/IRac.cpp:634`): `_prev = next`. -/
def markAsSent (s : IRacState) : IRacState := { s with _prev := s.next }

/-- Embeds `IRac::getStatePrev` (`src/IRac.cpp:148`). -/
def getStatePrev (s : IRacState) : state_t := s._prev

/-- Embeds `IRac::getState` (`src/IRac.cpp:143`). -/
def getState (s : IRacState) : state_t := s.next

/-- Embeds `IRac::sendAc(void)` (`src/IRac.cpp:640`): send the internal state and
commit it into `_prev` on success.  Returns the boolean result, the driver
invocation, and the updated object state. -/
def sendAcVoid (s : IRacState) : Bool × Option VendorCall × IRacState :=
  let r := sendAcState s.next (some s._prev)
  (r.1, r.2, if r.1 then markAsSent s else s)

/-- Embeds `IRac::initState` (`src/IRac.cpp:103`): package flat arguments into a
`state_t`; the fields it does not assign (`command`, `sensorTemperature`,
`iFeel`) keep their defaults, as in the C++ (a default-constructed struct
is populated field by field). -/
def initState (vendor : decode_type_t) (model : Int) (power : Bool)
    (mode : opmode_t) (degrees : ℚ) (celsius : Bool) (fan : fanspeed_t)
    (swingv : swingv_t) (swingh : swingh_t) (quiet turbo econo light : Bool)
    (filter clean beep : Bool) (sleep clock : Int) : state_t :=
  { protocol := vendor, model := model, power := power, mode := mode,
    degrees := degrees, celsius := celsius, fanspeed := fan,
    swingv := swingv, swingh := swingh, quiet := quiet, turbo := turbo,
    econo := econo, light := light, filter := filter, clean := clean,
    beep := beep, sleep := sleep, clock := clock }

/-- Embeds `IRac::sendAc(vendor, model, …)` (`src/IRac.cpp:558`): build `to_send`
from the flat arguments and forward it as both desired and previous
state. -/
def sendAcFlat (vendor : decode_type_t) (model : Int) (power : Bool)
    (mode : opmode_t) (degrees : ℚ) (celsius : Bool) (fan : fanspeed_t)
    (swingv : swingv_t) (swingh : swingh_t) (quiet turbo econo light : Bool)
    (filter clean beep : Bool) (sleep clock : Int) :
    Bool × Option VendorCall :=
  let to_send := initState vendor model power mode degrees celsius fan
    swingv swingh quiet turbo econo light filter clean beep sleep clock
  sendAcState to_send (some to_send)

/-- Embeds `IRac::cmpStates` (`src/IRac.cpp:651`): value inequality over every
field except `clock`. -/
def cmpStates (a b : state_t) : Bool :=
  a.protocol != b.protocol || a.model != b.model || a.power != b.power ||
  a.mode != b.mode || a.degrees != b.degrees || a.celsius != b.celsius ||
  a.fanspeed != b.fanspeed || a.swingv != b.swingv ||
  a.swingh != b.swingh || a.quiet != b.quiet || a.turbo != b.turbo ||
  a.econo != b.econo || a.light != b.light || a.filter != b.filter ||
  a.clean != b.clean || a.beep != b.beep || a.sleep != b.sleep ||
  a.command != b.command || a.sensorTemperature != b.sensorTemperature ||
  a.iFeel != b.iFeel

/-- Embeds `IRac::hasStateChanged` (`src/IRac.cpp:665`). -/
def hasStateChanged (s : IRacState) : Bool := cmpStates s.next s._prev

/-! ## The textual surface

The locale string constants (`IRtext`, outside `src/`) are modelled from
the spec's synonym tables (§4.2); `STRCASECMP` is modelled as ASCII
case-insensitive string equality. -/

/-- ASCII lower-casing of one character (the case folding `strcasecmp`
performs). -/
def lowerChar (c : Char) : Char :=
  if 65 ≤ c.toNat ∧ c.toNat ≤ 90 then Char.ofNat (c.toNat + 32) else c

/-- ASCII lower-casing of a string. -/
def lowerStr (s : String) : String := ⟨s.data.map lowerChar⟩

/-- Modelled from the spec: `!STRCASECMP(a, b)`, i.e. the two strings are
equal up to ASCII case. -/
def strCaseEq (a b : String) : Bool := lowerStr a == lowerStr b

/-- Modelled from the spec: the `IRtext` locale constants used by the
parsers and renderers of `IRac.cpp` (canonical synonyms of §4.2). -/
def kOnStr : String := "on"
def kOffStr : String := "off"
def kStopStr : String := "stop"
def kAutoStr : String := "auto"
def kAutomaticStr : String := "automatic"
def kCoolStr : String := "cool"
def kCoolingStr : String := "cooling"
def kHeatStr : String := "heat"
def kHeatingStr : String := "heating"
def kDryStr : String := "dry"
def kDryingStr : String := "drying"
def kDehumidifyStr : String := "dehumidify"
def kFanStr : String := "fan"
def kFanOnlyStr : String := "fanonly"
def kFan_OnlyStr : String := "fan_only"
def kFanOnlyWithSpaceStr : String := "fan only"
def kFanOnlyNoSpaceStr : String := "fan-only"
def kMinStr : String := "min"
def kMinimumStr : String := "minimum"
def kLowestStr : String := "lowest"
def kLowStr : String := "low"
def kLoStr : String := "lo"
def kMedStr : String := "med"
def kMediumStr : String := "medium"
def kMidStr : String := "mid"
def kMedHighStr : String := "medhigh"
def kHighStr : String := "high"
def kHiStr : String := "hi"
def kMaxStr : String := "max"
def kMaximumStr : String := "maximum"
def kHighestStr : String := "highest"
def kBottomStr : String := "bottom"
def kDownStr : String := "down"
def kMiddleStr : String := "middle"
def kCentreStr : String := "centre"
def kUpperMiddleStr : String := "uppermiddle"
def kTopStr : String := "top"
def kUpStr : String := "up"
def kSwingStr : String := "swing"
def kLeftMaxNoSpaceStr : String := "leftmax"
def kLeftMaxStr : String := "left max"
def kMaxLeftNoSpaceStr : String := "maxleft"
def kMaxLeftStr : String := "max left"
def kLeftStr : String := "left"
def kRightStr : String := "right"
def kRightMaxNoSpaceStr : String := "rightmax"
def kRightMaxStr : String := "right max"
def kMaxRightNoSpaceStr : String := "maxright"
def kMaxRightStr : String := "max right"
def kWideStr : String := "wide"
def kControlCommandStr : String := "control"
def kIFeelReportStr : String := "ifeelreport"
def kIFeelStr : String := "ifeel"
def kSetTimerCommandStr : String := "settimercommand"
def kTimerStr : String := "timer"
def kConfigCommandStr : String := "config"
def k1Str : String := "1"
def k0Str : String := "0"
def kYesStr : String := "yes"
def kNoStr : String := "no"
def kTrueStr : String := "true"
def kFalseStr : String := "false"
def kUnknownStr : String := "unknown"

/-- Embeds `IRac::strToCommandType` (`src/IRac.cpp:671`). -/
def strToCommandType (str : String) (d : ac_command_t) : ac_command_t :=
  if strCaseEq str kControlCommandStr then ac_command_t.kControlCommand
  else if strCaseEq str kIFeelReportStr || strCaseEq str kIFeelStr then
    ac_command_t.kSensorTempReport
  else if strCaseEq str kSetTimerCommandStr || strCaseEq str kTimerStr then
    ac_command_t.kTimerCommand
  else if strCaseEq str kConfigCommandStr then ac_command_t.kConfigCommand
  else d

/-- Embeds `IRac::strToOpmode` (`src/IRac.cpp:691`). -/
def strToOpmode (str : String) (d : opmode_t) : opmode_t :=
  if strCaseEq str kAutoStr || strCaseEq str kAutomaticStr then opmode_t.kAuto
  else if strCaseEq str kOffStr || strCaseEq str kStopStr then opmode_t.kOff
  else if strCaseEq str kCoolStr || strCaseEq str kCoolingStr then opmode_t.kCool
  else if strCaseEq str kHeatStr || strCaseEq str kHeatingStr then opmode_t.kHeat
  else if strCaseEq str kDryStr || strCaseEq str kDryingStr ||
      strCaseEq str kDehumidifyStr then opmode_t.kDry
  else if strCaseEq str kFanStr || strCaseEq str kFanOnlyStr ||
      strCaseEq str kFan_OnlyStr || strCaseEq str kFanOnlyWithSpaceStr ||
      strCaseEq str kFanOnlyNoSpaceStr then opmode_t.kFan
  else d

/-- Embeds `IRac::strToFanspeed` (`src/IRac.cpp:727`). -/
def strToFanspeed (str : String) (d : fanspeed_t) : fanspeed_t :=
  if strCaseEq str kAutoStr || strCaseEq str kAutomaticStr then fanspeed_t.kAuto
  else if strCaseEq str kMinStr || strCaseEq str kMinimumStr ||
      strCaseEq str kLowestStr then fanspeed_t.kMin
  else if strCaseEq str kLowStr || strCaseEq str kLoStr then fanspeed_t.kLow
  else if strCaseEq str kMedStr || strCaseEq str kMediumStr ||
      strCaseEq str kMidStr then fanspeed_t.kMedium
  else if strCaseEq str kHighStr || strCaseEq str kHiStr then fanspeed_t.kHigh
  else if strCaseEq str kMaxStr || strCaseEq str kMaximumStr ||
      strCaseEq str kHighestStr then fanspeed_t.kMax
  else if strCaseEq str kMedHighStr then fanspeed_t.kMediumHigh
  else d

/-- Embeds `IRac::strToSwingV` (`src/IRac.cpp:760`). -/
def strToSwingV (str : String) (d : swingv_t) : swingv_t :=
  if strCaseEq str kAutoStr || strCaseEq str kAutomaticStr ||
      strCaseEq str kOnStr || strCaseEq str kSwingStr then swingv_t.kAuto
  else if strCaseEq str kOffStr || strCaseEq str kStopStr then swingv_t.kOff
  else if strCaseEq str kMinStr || strCaseEq str kMinimumStr ||
      strCaseEq str kLowestStr || strCaseEq str kBottomStr ||
      strCaseEq str kDownStr then swingv_t.kLowest
  else if strCaseEq str kLowStr then swingv_t.kLow
  else if strCaseEq str kMidStr || strCaseEq str kMiddleStr ||
      strCaseEq str kMedStr || strCaseEq str kMediumStr ||
      strCaseEq str kCentreStr then swingv_t.kMiddle
  else if strCaseEq str kUpperMiddleStr then swingv_t.kUpperMiddle
  else if strCaseEq str kHighStr || strCaseEq str kHiStr then swingv_t.kHigh
  else if strCaseEq str kHighestStr || strCaseEq str kMaxStr ||
      strCaseEq str kMaximumStr || strCaseEq str kTopStr ||
      strCaseEq str kUpStr then swingv_t.kHighest
  else d

/-- Embeds `IRac::strToSwingH` (`src/IRac.cpp:803`). -/
def strToSwingH (str : String) (d : swingh_t) : swingh_t :=
  if strCaseEq str kAutoStr || strCaseEq str kAutomaticStr ||
      strCaseEq str kOnStr || strCaseEq str kSwingStr then swingh_t.kAuto
  else if strCaseEq str kOffStr || strCaseEq str kStopStr then swingh_t.kOff
  else if strCaseEq str kLeftMaxNoSpaceStr || strCaseEq str kLeftMaxStr ||
      strCaseEq str kMaxLeftNoSpaceStr || strCaseEq str kMaxLeftStr then
    swingh_t.kLeftMax
  else if strCaseEq str kLeftStr then swingh_t.kLeft
  else if strCaseEq str kMidStr || strCaseEq str kMiddleStr ||
      strCaseEq str kMedStr || strCaseEq str kMediumStr ||
      strCaseEq str kCentreStr then swingh_t.kMiddle
  else if strCaseEq str kRightStr then swingh_t.kRight
  else if strCaseEq str kRightMaxNoSpaceStr || strCaseEq str kRightMaxStr ||
      strCaseEq str kMaxRightNoSpaceStr || strCaseEq str kMaxRightStr then
    swingh_t.kRightMax
  else if strCaseEq str kWideStr then swingh_t.kWide
  else d

/-- Embeds `IRac::strToBool` (`src/IRac.cpp:946`). -/
def strToBool (str : String) (d : Bool) : Bool :=
  if strCaseEq str kOnStr || strCaseEq str k1Str || strCaseEq str kYesStr ||
      strCaseEq str kTrueStr then true
  else if strCaseEq str kOffStr || strCaseEq str k0Str ||
      strCaseEq str kNoStr || strCaseEq str kFalseStr then false
  else d

/-- Embeds `IRac::boolToString` (`src/IRac.cpp:964`). -/
def boolToString (value : Bool) : String := if value then kOnStr else kOffStr

/-- Embeds `IRac::commandTypeToString` (`src/IRac.cpp:971`). -/
def commandTypeToString (cmdType : ac_command_t) : String :=
  match cmdType with
  | .kControlCommand => kControlCommandStr
  | .kSensorTempReport => kIFeelReportStr
  | .kTimerCommand => kSetTimerCommandStr
  | .kConfigCommand => kConfigCommandStr

/-- Embeds `IRac::opmodeToString` (`src/IRac.cpp:985`); `ha` selects the
HomeAssistant-compatible rendering of the fan mode. -/
def opmodeToString (mode : opmode_t) (ha : Bool) : String :=
  match mode with
  | .kOff => kOffStr
  | .kAuto => kAutoStr
  | .kCool => kCoolStr
  | .kHeat => kHeatStr
  | .kDry => kDryStr
  | .kFan => if ha then kFan_OnlyStr else kFanStr

/-- Embeds `IRac::fanspeedToString` (`src/IRac.cpp:1000`). -/
def fanspeedToString (speed : fanspeed_t) : String :=
  match speed with
  | .kAuto => kAutoStr
  | .kMax => kMaxStr
  | .kHigh => kHighStr
  | .kMedium => kMediumStr
  | .kMediumHigh => kMedHighStr
  | .kLow => kLowStr
  | .kMin => kMinStr

/-- Embeds `IRac::swingvToString` (`src/IRac.cpp:1016`). -/
def swingvToString (swingv : swingv_t) : String :=
  match swingv with
  | .kOff => kOffStr
  | .kAuto => kAutoStr
  | .kHighest => kHighestStr
  | .kHigh => kHighStr
  | .kMiddle => kMiddleStr
  | .kUpperMiddle => kUpperMiddleStr
  | .kLow => kLowStr
  | .kLowest => kLowestStr

/-- Embeds `IRac::swinghToString` (`src/IRac.cpp:1033`). -/
def swinghToString (swingh : swingh_t) : String :=
  match swingh with
  | .kOff => kOffStr
  | .kAuto => kAutoStr
  | .kLeftMax => kLeftMaxStr
  | .kLeft => kLeftStr
  | .kMiddle => kMiddleStr
  | .kRight => kRightStr
  | .kRightMax => kRightMaxStr
  | .kWide => kWideStr

/-! ## The decoded-to-common adapter (`IRAcUtils`) -/

/-- A raw decode result (`decode_results`): the protocol tag, the 64-bit
`value` (used by the LG decoder) and the `state` byte buffer (used by the
RHOSS decoder). -/
structure decode_results : Type where
  decode_type : decode_type_t
  value : Nat
  state : List Nat
  deriving DecidableEq, Repr

/-- Modelled from the spec: the LG decoder driver (`IRLgAc`, outside
`src/`); per the vendor-decoder contract (§6) it provides a validity check
and a human-readable rendering of the raw value. -/
structure LgDriverModel : Type where
  isValidLgAc : Nat → Bool
  render : Nat → String

/-- Modelled from the spec: the RHOSS decoder driver (`IRRhossAc`, outside
`src/`); per the vendor-decoder contract (§6) it provides a validity check
and a human-readable rendering of the raw state buffer. -/
structure RhossDriverModel : Type where
  isValid : List Nat → Bool
  render : List Nat → String

/-- Embeds `IRAcUtils::resultAcToString` (`src/IRac.cpp:1053`), parametrised by
the two driver models.  The LG arm asks the driver for validity; the RHOSS
arm returns the rendering without consulting validity, as in the source. -/
def resultAcToString (lg : LgDriverModel) (rh : RhossDriverModel)
    (result : decode_results) : String :=
  match result.decode_type with
  | .LG | .LG2 =>
      if lg.isValidLgAc result.value then lg.render result.value else ""
  | .RHOSS => rh.render result.state
  | _ => ""

/-! ## Helper lemmas -/

/-- cleanState never changes the protocol field. -/
lemma cleanState_protocol (s : state_t) : (cleanState s).protocol = s.protocol := by
  unfold cleanState; split <;> rfl

/-- handleToggles never changes the protocol field. -/
lemma handleToggles_protocol (d : state_t) (prev : Option state_t) :
    (handleToggles d prev).protocol = d.protocol := by
  cases prev with
  | none => rfl
  | some p =>
    unfold handleToggles
    dsimp only
    by_cases hc : d.protocol = p.protocol ∧ d.model = p.model
    · rw [if_pos hc]
      cases h : d.protocol <;> first | rfl | exact h
    · rw [if_neg hc]

/-- The resolved send state keeps the desired protocol. -/
lemma resolvedSend_protocol (d : state_t) (prev : Option state_t) :
    (resolvedSend d prev).protocol = d.protocol := by
  unfold resolvedSend
  rw [handleToggles_protocol, cleanState_protocol]

/-- The dispatch switch succeeds exactly on the supported protocols. -/
lemma vendorDispatch_fst (send : state_t) (degreesC : ℚ) (pv : swingv_t) :
    (vendorDispatch send degreesC pv).1 = isProtocolSupported send.protocol := by
  cases h : send.protocol <;> simp [vendorDispatch, isProtocolSupported, h]

/-- cmpStates is false exactly when the two states agree on every field
other than the clock. -/
lemma cmpStates_false_iff (a b : state_t) :
    cmpStates a b = false ↔ { a with clock := b.clock } = b := by
  cases a; cases b
  simp only [cmpStates, Bool.or_eq_false_iff, bne_eq_false_iff_eq, state_t.mk.injEq]
  tauto

/-! ## Claim theorems -/

/-- C1: for every desired Common State and every previous-state pointer,
the structured `sendAc(desired, prev)` returns false iff
`desired.protocol` is outside the set on which `isProtocolSupported`
returns true, and returns true otherwise. -/
theorem sendAc_result_iff_supported (desired : state_t) (prev : Option state_t) :
    ((sendAcState desired prev).1 = false ↔
      isProtocolSupported desired.protocol = false) ∧
    ((sendAcState desired prev).1 = true ↔
      isProtocolSupported desired.protocol = true) := by
  unfold sendAcState
  rw [vendorDispatch_fst, resolvedSend_protocol]
  exact ⟨Iff.rfl, Iff.rfl⟩

/-- C2 (counterexample): a successful no-argument `sendAc()` commits the
raw `next` state to `_prev`, not its normalised, toggle-resolved
transformation: with `next = (LG, mode off, power on)`, the send succeeds
yet `getStatePrev()` differs from `handleToggles(cleanState(next), &_prev)`
(whose power has been forced off by `cleanState`). -/
theorem sendAcVoid_cex :
    (sendAcVoid ⟨{ protocol := .LG, mode := .kOff, power := true },
        { protocol := .LG }⟩).1 = true ∧
    getStatePrev (sendAcVoid ⟨{ protocol := .LG, mode := .kOff, power := true },
        { protocol := .LG }⟩).2.2 ≠
      handleToggles (cleanState { protocol := .LG, mode := .kOff, power := true })
        (some { protocol := .LG }) := by decide

/-- C2 (amended): if the no-argument `sendAc()` returns true, afterwards
`getStatePrev()` equals the raw internal `next` state (assigned by
`markAsSent`); if it returns false, `_prev` is unchanged. -/
theorem sendAcVoid_prev_update (s : IRacState) :
    ((sendAcVoid s).1 = true → getStatePrev (sendAcVoid s).2.2 = s.next) ∧
    ((sendAcVoid s).1 = false → getStatePrev (sendAcVoid s).2.2 = getStatePrev s) := by
  unfold sendAcVoid
  by_cases h : (sendAcState s.next (some s._prev)).1 = true <;>
    simp [h, markAsSent, getStatePrev]

/-- C2 (witness): the amended theorem applied at a concrete LG state whose
send succeeds. -/
theorem sendAcVoid_prev_update_witness :
    (sendAcVoid ⟨{ protocol := .LG, mode := .kOff, power := true },
        { protocol := .LG }⟩).1 = true ∧
    getStatePrev (sendAcVoid ⟨{ protocol := .LG, mode := .kOff, power := true },
        { protocol := .LG }⟩).2.2 =
      ({ protocol := .LG, mode := .kOff, power := true } : state_t) :=
  ⟨by decide,
   (sendAcVoid_prev_update ⟨{ protocol := .LG, mode := .kOff, power := true },
      { protocol := .LG }⟩).1 (by decide)⟩

/-- C3: at the failing input (RHOSS, degrees 72 °F, sensorTemperature 72,
celsius false) the code leaves `sensorTempC` at 72 — the conversion is
gated on `sensorTemperature` being non-zero instead of on `celsius`,
contradicting the source's own comment ("Convert the sensorTemp from
Fahrenheit to Celsius if we are not in Celsius mode") — while `degC` is
correctly converted to 200/9 = 22.22… °C and handed to the RHOSS driver;
the LG arm moreover hands the raw `send.degrees` (72), not `degC`. -/
theorem sensorTemp_not_converted :
    sensorTempC { protocol := .RHOSS, degrees := 72, celsius := false,
                  sensorTemperature := 72 } = 72 ∧
    fahrenheitToCelsius 72 = 200 / 9 ∧
    sensorTempC { protocol := .RHOSS, degrees := 72, celsius := false,
                  sensorTemperature := 72 } ≠ fahrenheitToCelsius 72 ∧
    degC { protocol := .RHOSS, degrees := 72, celsius := false,
           sensorTemperature := 72 } = 200 / 9 ∧
    (sendAcState { protocol := .RHOSS, degrees := 72, celsius := false,
                   sensorTemperature := 72 } none).2 =
      some (VendorCall.rhossCall false .kAuto (200 / 9) .kAuto .kOff) ∧
    (sendAcState { protocol := .LG, degrees := 72, celsius := false } none).2 =
      some (VendorCall.lgCall 1 false .kAuto 72 .kAuto .kOff .kOff .kOff false) := by
  refine ⟨by decide, by norm_num [fahrenheitToCelsius], ?_, ?_, ?_, by decide⟩
  · norm_num [sensorTempC, fahrenheitToCelsius]
  · norm_num [degC, fahrenheitToCelsius]
  · simp only [sendAcState, vendorDispatch, resolvedSend, cleanState, handleToggles,
      prev_swingv]
    norm_num [degC, fahrenheitToCelsius]

/-- C4: for all states of the same protocol and model, for every protocol
with the swingv rule (COOLIX, TRANSCOLD, MIDEA, CORONA_AC, HITACHI_AC344,
HITACHI_AC424, SHARP_AC, KELON), the resolved swingv is auto or off, and
it is auto iff the off-ness of the desired swingv differs from the
off-ness of the previous swingv. -/
theorem handleToggles_swingv_toggle (d p : state_t)
    (hp : d.protocol = p.protocol) (hm : d.model = p.model)
    (hs : d.protocol = .COOLIX ∨ d.protocol = .TRANSCOLD ∨ d.protocol = .MIDEA ∨
      d.protocol = .CORONA_AC ∨ d.protocol = .HITACHI_AC344 ∨
      d.protocol = .HITACHI_AC424 ∨ d.protocol = .SHARP_AC ∨ d.protocol = .KELON) :
    ((handleToggles d (some p)).swingv = swingv_t.kAuto ∨
      (handleToggles d (some p)).swingv = swingv_t.kOff) ∧
    ((handleToggles d (some p)).swingv = swingv_t.kAuto ↔
      ((d.swingv = swingv_t.kOff) ≠ (p.swingv = swingv_t.kOff))) := by
  have hc : d.protocol = p.protocol ∧ d.model = p.model := ⟨hp, hm⟩
  unfold handleToggles
  dsimp only
  rw [if_pos hc]
  by_cases c : (d.swingv = swingv_t.kOff) ≠ (p.swingv = swingv_t.kOff) <;>
    rcases hs with h|h|h|h|h|h|h|h <;> rw [h] <;> simp [c]

/-- C4 (witness): the swingv rule at a concrete COOLIX pair whose desired
swingv (high) changed off-ness against the previous (off). -/
theorem handleToggles_swingv_toggle_witness :
    ((handleToggles { protocol := .COOLIX, swingv := .kHigh }
        (some { protocol := .COOLIX })).swingv = swingv_t.kAuto ∨
      (handleToggles { protocol := .COOLIX, swingv := .kHigh }
        (some { protocol := .COOLIX })).swingv = swingv_t.kOff) ∧
    ((handleToggles { protocol := .COOLIX, swingv := .kHigh }
        (some { protocol := .COOLIX })).swingv = swingv_t.kAuto ↔
      ((({ protocol := .COOLIX, swingv := .kHigh } : state_t).swingv = swingv_t.kOff) ≠
        (({ protocol := .COOLIX } : state_t).swingv = swingv_t.kOff))) :=
  handleToggles_swingv_toggle { protocol := .COOLIX, swingv := .kHigh }
    { protocol := .COOLIX } rfl rfl (Or.inl rfl)

/-- C5: for all states of the same protocol and model, every boolean field
the §4.4 rewrite table marks as a toggle for its protocol resolves to the
XOR of the desired and previous values (turbo/light/clean for COOLIX and
TRANSCOLD, power/light for DAIKIN128, light for ELECTRA_AC, turbo/econo
for FUJITSU_AC, turbo/econo/light/clean for MIDEA, light for SHARP_AC,
power for AIRWELL/DAIKIN64/PANASONIC_AC32/WHIRLPOOL_AC/KELON, clean — and
light on model KKG29AC1 — for MIRAGE, power on model Ckp for PANASONIC_AC,
beep/clean for SAMSUNG_AC). -/
theorem handleToggles_bool_toggles (d p : state_t)
    (hp : d.protocol = p.protocol) (hm : d.model = p.model) :
    ((d.protocol = .COOLIX ∨ d.protocol = .TRANSCOLD) →
      (handleToggles d (some p)).turbo = xor d.turbo p.turbo ∧
      (handleToggles d (some p)).light = xor d.light p.light ∧
      (handleToggles d (some p)).clean = xor d.clean p.clean) ∧
    (d.protocol = .DAIKIN128 →
      (handleToggles d (some p)).power = xor d.power p.power ∧
      (handleToggles d (some p)).light = xor d.light p.light) ∧
    (d.protocol = .ELECTRA_AC →
      (handleToggles d (some p)).light = xor d.light p.light) ∧
    (d.protocol = .FUJITSU_AC →
      (handleToggles d (some p)).turbo = xor d.turbo p.turbo ∧
      (handleToggles d (some p)).econo = xor d.econo p.econo) ∧
    (d.protocol = .MIDEA →
      (handleToggles d (some p)).turbo = xor d.turbo p.turbo ∧
      (handleToggles d (some p)).econo = xor d.econo p.econo ∧
      (handleToggles d (some p)).light = xor d.light p.light ∧
      (handleToggles d (some p)).clean = xor d.clean p.clean) ∧
    (d.protocol = .SHARP_AC →
      (handleToggles d (some p)).light = xor d.light p.light) ∧
    ((d.protocol = .AIRWELL ∨ d.protocol = .DAIKIN64 ∨
      d.protocol = .PANASONIC_AC32 ∨ d.protocol = .WHIRLPOOL_AC ∨
      d.protocol = .KELON) →
      (handleToggles d (some p)).power = xor d.power p.power) ∧
    (d.protocol = .MIRAGE →
      (handleToggles d (some p)).clean = xor d.clean p.clean ∧
      (d.model = KKG29AC1 →
        (handleToggles d (some p)).light = xor d.light p.light)) ∧
    (d.protocol = .PANASONIC_AC → d.model = kPanasonicCkp →
      (handleToggles d (some p)).power = xor d.power p.power) ∧
    (d.protocol = .SAMSUNG_AC →
      (handleToggles d (some p)).beep = xor d.beep p.beep ∧
      (handleToggles d (some p)).clean = xor d.clean p.clean) := by
  have hc : d.protocol = p.protocol ∧ d.model = p.model := ⟨hp, hm⟩
  unfold handleToggles
  dsimp only
  rw [if_pos hc]
  refine ⟨?_, ?_, ?_, ?_, ?_, ?_, ?_, ?_, ?_, ?_⟩
  · rintro (h|h) <;> rw [h] <;> simp
  · intro h; rw [h]; simp
  · intro h; rw [h]
  · intro h; rw [h]; simp
  · intro h; rw [h]; simp
  · intro h; rw [h]
  · rintro (h|h|h|h|h) <;> rw [h]
  · intro h
    rw [h]
    by_cases hmodel : d.model = KKG29AC1 <;> simp [hmodel]
  · intro h hmodel
    rw [h]
    simp [hmodel]
  · intro h; rw [h]; simp

/-- C5 (witness): the COOLIX turbo toggle of the spec's scenario 3 —
desired turbo on against previous turbo off. -/
theorem handleToggles_bool_toggles_witness :
    (handleToggles { protocol := .COOLIX, power := true, mode := .kCool,
                     turbo := true }
      (some { protocol := .COOLIX, power := true, mode := .kCool })).turbo =
      xor ({ protocol := .COOLIX, power := true, mode := .kCool,
             turbo := true } : state_t).turbo
        ({ protocol := .COOLIX, power := true, mode := .kCool } : state_t).turbo ∧
    (handleToggles { protocol := .COOLIX, power := true, mode := .kCool,
                     turbo := true }
      (some { protocol := .COOLIX, power := true, mode := .kCool })).light =
      xor ({ protocol := .COOLIX, power := true, mode := .kCool,
             turbo := true } : state_t).light
        ({ protocol := .COOLIX, power := true, mode := .kCool } : state_t).light ∧
    (handleToggles { protocol := .COOLIX, power := true, mode := .kCool,
                     turbo := true }
      (some { protocol := .COOLIX, power := true, mode := .kCool })).clean =
      xor ({ protocol := .COOLIX, power := true, mode := .kCool,
             turbo := true } : state_t).clean
        ({ protocol := .COOLIX, power := true, mode := .kCool } : state_t).clean :=
  (handleToggles_bool_toggles
    { protocol := .COOLIX, power := true, mode := .kCool, turbo := true }
    { protocol := .COOLIX, power := true, mode := .kCool } rfl rfl).1 (Or.inl rfl)

/-- C6 (counterexample): the RHOSS arm of `resultAcToString` returns the
driver's rendering without consulting frame validity: with a driver model
that reports every frame invalid yet renders "X", the function returns
"X", not the empty string, on a RHOSS decode. -/
theorem resultAcToString_rhoss_cex :
    isProtocolSupported (decode_results.mk .RHOSS 0 []).decode_type = true ∧
    (RhossDriverModel.mk (fun _ => false) (fun _ => "X")).isValid
      (decode_results.mk .RHOSS 0 []).state = false ∧
    resultAcToString (LgDriverModel.mk (fun _ => false) (fun _ => ""))
      (RhossDriverModel.mk (fun _ => false) (fun _ => "X"))
      (decode_results.mk .RHOSS 0 []) = "X" ∧
    resultAcToString (LgDriverModel.mk (fun _ => false) (fun _ => ""))
      (RhossDriverModel.mk (fun _ => false) (fun _ => "X"))
      (decode_results.mk .RHOSS 0 []) ≠ "" := by
  refine ⟨rfl, rfl, rfl, ?_⟩
  decide

/-- C6 (amended): `resultAcToString` dispatches on the decoded protocol;
for LG/LG2 it returns the driver's rendering iff the driver reports the
frame valid (else the empty string); for RHOSS it returns the driver's
rendering unconditionally, never consulting validity; for every
unsupported protocol it returns the empty string. -/
theorem resultAcToString_dispatch (lg : LgDriverModel) (rh : RhossDriverModel)
    (r : decode_results) :
    ((r.decode_type = .LG ∨ r.decode_type = .LG2) →
      resultAcToString lg rh r =
        (if lg.isValidLgAc r.value then lg.render r.value else "")) ∧
    (r.decode_type = .RHOSS → resultAcToString lg rh r = rh.render r.state) ∧
    (isProtocolSupported r.decode_type = false → resultAcToString lg rh r = "") := by
  refine ⟨?_, ?_, ?_⟩
  · rintro (h|h) <;> · unfold resultAcToString; rw [h]
  · intro h; unfold resultAcToString; rw [h]
  · intro h
    unfold resultAcToString
    cases hr : r.decode_type <;> first
      | rfl
      | (rw [hr] at h; exact absurd h (by decide))

/-- C6 (witness): the amended dispatch theorem applied to a concrete RHOSS
decode with a rendering driver. -/
theorem resultAcToString_dispatch_witness :
    resultAcToString (LgDriverModel.mk (fun _ => true) (fun _ => "lg state"))
      (RhossDriverModel.mk (fun _ => true) (fun _ => "rhoss state"))
      (decode_results.mk .RHOSS 5 [1, 2]) = "rhoss state" :=
  (resultAcToString_dispatch (LgDriverModel.mk (fun _ => true) (fun _ => "lg state"))
    (RhossDriverModel.mk (fun _ => true) (fun _ => "rhoss state"))
    (decode_results.mk .RHOSS 5 [1, 2])).2.1 rfl

/-- C7: `cmpStates(a, b)` is true iff the states differ in at least one
field other than clock (copying b's clock into a still leaves them
different); in particular changing only the clock never registers as a
change. -/
theorem cmpStates_ignores_clock (a b : state_t) (k : Int) :
    (cmpStates a b = true ↔ { a with clock := b.clock } ≠ b) ∧
    cmpStates a { a with clock := k } = false := by
  constructor
  · rw [← Bool.not_eq_false, ne_eq, not_iff_not]
    exact cmpStates_false_iff a b
  · exact (cmpStates_false_iff a { a with clock := k }).mpr rfl

/-- C8: `cleanState` changes no field but power, and forces power to false
exactly when the mode is off. -/
theorem cleanState_spec (x : state_t) :
    cleanState x =
      { x with power := if x.mode = opmode_t.kOff then false else x.power } := by
  unfold cleanState
  by_cases h : x.mode = opmode_t.kOff <;> simp [h]

/-- C9: parsing the canonical rendering of every enum value of opmode,
fanspeed, swingv, swingh, command and boolean, with any default different
from the value, yields the value again. -/
theorem parse_render_roundtrip :
    (∀ (v d : ac_command_t), d ≠ v → strToCommandType (commandTypeToString v) d = v) ∧
    (∀ (v d : opmode_t) (ha : Bool), d ≠ v → strToOpmode (opmodeToString v ha) d = v) ∧
    (∀ (v d : fanspeed_t), d ≠ v → strToFanspeed (fanspeedToString v) d = v) ∧
    (∀ (v d : swingv_t), d ≠ v → strToSwingV (swingvToString v) d = v) ∧
    (∀ (v d : swingh_t), d ≠ v → strToSwingH (swinghToString v) d = v) ∧
    (∀ (v d : Bool), d ≠ v → strToBool (boolToString v) d = v) := by
  refine ⟨?_, ?_, ?_, ?_, ?_, ?_⟩
  · intro v d _h; cases v <;> rfl
  · intro v d ha _h; cases v <;> cases ha <;> rfl
  · intro v d _h; cases v <;> rfl
  · intro v d _h; cases v <;> rfl
  · intro v d _h; cases v <;> rfl
  · intro v d _h; cases v <;> rfl

/-- C9 (witness): the home-automation rendering of the fan mode parses
back to fan against the default auto. -/
theorem parse_render_roundtrip_witness :
    opmode_t.kAuto ≠ opmode_t.kFan ∧
    strToOpmode (opmodeToString .kFan true) .kAuto = .kFan :=
  ⟨by decide, parse_render_roundtrip.2.1 .kFan .kAuto true (by decide)⟩

/-- Resolving a state against itself leaves every edge-triggered field at
its no-change value. -/
lemma handleToggles_self_neutral (s : state_t) :
    ((s.protocol = .COOLIX ∨ s.protocol = .TRANSCOLD) →
      (handleToggles s (some s)).turbo = false ∧
      (handleToggles s (some s)).light = false ∧
      (handleToggles s (some s)).clean = false ∧
      (handleToggles s (some s)).sleep = -1 ∧
      (handleToggles s (some s)).swingv = swingv_t.kOff) ∧
    (s.protocol = .DAIKIN128 →
      (handleToggles s (some s)).power = false ∧
      (handleToggles s (some s)).light = false) ∧
    (s.protocol = .ELECTRA_AC → (handleToggles s (some s)).light = false) ∧
    (s.protocol = .FUJITSU_AC →
      (handleToggles s (some s)).turbo = false ∧
      (handleToggles s (some s)).econo = false) ∧
    (s.protocol = .MIDEA →
      (handleToggles s (some s)).turbo = false ∧
      (handleToggles s (some s)).econo = false ∧
      (handleToggles s (some s)).light = false ∧
      (handleToggles s (some s)).clean = false ∧
      (handleToggles s (some s)).swingv = swingv_t.kOff) ∧
    ((s.protocol = .CORONA_AC ∨ s.protocol = .HITACHI_AC344 ∨
      s.protocol = .HITACHI_AC424) →
      (handleToggles s (some s)).swingv = swingv_t.kOff) ∧
    (s.protocol = .SHARP_AC →
      (handleToggles s (some s)).light = false ∧
      (handleToggles s (some s)).swingv = swingv_t.kOff) ∧
    (s.protocol = .KELON →
      (handleToggles s (some s)).swingv = swingv_t.kOff ∧
      (handleToggles s (some s)).power = false) ∧
    ((s.protocol = .AIRWELL ∨ s.protocol = .DAIKIN64 ∨
      s.protocol = .PANASONIC_AC32 ∨ s.protocol = .WHIRLPOOL_AC) →
      (handleToggles s (some s)).power = false) ∧
    (s.protocol = .MIRAGE →
      (handleToggles s (some s)).clean = false ∧
      (s.model = KKG29AC1 → (handleToggles s (some s)).light = false)) ∧
    (s.protocol = .PANASONIC_AC → s.model = kPanasonicCkp →
      (handleToggles s (some s)).power = false) ∧
    (s.protocol = .SAMSUNG_AC →
      (handleToggles s (some s)).beep = false ∧
      (handleToggles s (some s)).clean = false) := by
  unfold handleToggles
  dsimp only
  rw [if_pos ⟨rfl, rfl⟩]
  refine ⟨?_, ?_, ?_, ?_, ?_, ?_, ?_, ?_, ?_, ?_, ?_, ?_⟩
  · rintro (h|h) <;> rw [h] <;> simp
  · intro h; rw [h]; simp
  · intro h; rw [h]; simp
  · intro h; rw [h]; simp
  · intro h; rw [h]; simp
  · rintro (h|h|h) <;> rw [h] <;> simp
  · intro h; rw [h]; simp
  · intro h; rw [h]; simp
  · rintro (h|h|h|h) <;> rw [h] <;> simp
  · intro h
    rw [h]
    by_cases hmodel : s.model = KKG29AC1 <;> simp [hmodel]
  · intro h hmodel; rw [h]; simp [hmodel]
  · intro h; rw [h]; simp

/-- C10: the flat-argument `sendAc` packages its arguments into one state
and passes it as both desired and previous, so with mode different from
off every edge-triggered field of the state handed to the vendor driver
resolves to its no-change value regardless of the argument values: every
toggled boolean of the protocol's rewrite list comes out false, sleep
comes out -1 for COOLIX/TRANSCOLD, and swingv comes out off for every
swingv-rule protocol. -/
theorem sendAcFlat_toggles_neutral (vendor : decode_type_t) (model : Int)
    (power : Bool) (mode : opmode_t) (degrees : ℚ) (celsius : Bool)
    (fan : fanspeed_t) (swingv : swingv_t) (swingh : swingh_t)
    (quiet turbo econo light filter clean beep : Bool) (sleep clock : Int)
    (h : mode ≠ opmode_t.kOff) (s : state_t)
    (hs : s = initState vendor model power mode degrees celsius fan swingv
      swingh quiet turbo econo light filter clean beep sleep clock)
    (r : state_t) (hr : r = resolvedSend s (some s)) :
    ((vendor = .COOLIX ∨ vendor = .TRANSCOLD) →
      r.turbo = false ∧ r.light = false ∧ r.clean = false ∧
      r.sleep = -1 ∧ r.swingv = swingv_t.kOff) ∧
    (vendor = .DAIKIN128 → r.power = false ∧ r.light = false) ∧
    (vendor = .ELECTRA_AC → r.light = false) ∧
    (vendor = .FUJITSU_AC → r.turbo = false ∧ r.econo = false) ∧
    (vendor = .MIDEA →
      r.turbo = false ∧ r.econo = false ∧ r.light = false ∧
      r.clean = false ∧ r.swingv = swingv_t.kOff) ∧
    ((vendor = .CORONA_AC ∨ vendor = .HITACHI_AC344 ∨
      vendor = .HITACHI_AC424) → r.swingv = swingv_t.kOff) ∧
    (vendor = .SHARP_AC → r.light = false ∧ r.swingv = swingv_t.kOff) ∧
    (vendor = .KELON → r.swingv = swingv_t.kOff ∧ r.power = false) ∧
    ((vendor = .AIRWELL ∨ vendor = .DAIKIN64 ∨ vendor = .PANASONIC_AC32 ∨
      vendor = .WHIRLPOOL_AC) → r.power = false) ∧
    (vendor = .MIRAGE →
      r.clean = false ∧ (model = KKG29AC1 → r.light = false)) ∧
    (vendor = .PANASONIC_AC → model = kPanasonicCkp → r.power = false) ∧
    (vendor = .SAMSUNG_AC → r.beep = false ∧ r.clean = false) := by
  subst hr
  subst hs
  have hclean : cleanState (initState vendor model power mode degrees celsius
      fan swingv swingh quiet turbo econo light filter clean beep sleep clock) =
      initState vendor model power mode degrees celsius fan swingv swingh
        quiet turbo econo light filter clean beep sleep clock := by
    unfold cleanState initState
    simp [h]
  unfold resolvedSend
  rw [hclean]
  exact handleToggles_self_neutral (initState vendor model power mode degrees
    celsius fan swingv swingh quiet turbo econo light filter clean beep
    sleep clock)

/-- C10 (witness): the neutrality theorem applied to a concrete COOLIX
call with turbo, light and clean requested on. -/
theorem sendAcFlat_toggles_neutral_witness :
    (resolvedSend (initState .COOLIX 1 true .kCool 25 true .kAuto .kAuto .kOff
        false true false true false true false 0 (-1))
      (some (initState .COOLIX 1 true .kCool 25 true .kAuto .kAuto .kOff
        false true false true false true false 0 (-1)))).turbo = false ∧
    (resolvedSend (initState .COOLIX 1 true .kCool 25 true .kAuto .kAuto .kOff
        false true false true false true false 0 (-1))
      (some (initState .COOLIX 1 true .kCool 25 true .kAuto .kAuto .kOff
        false true false true false true false 0 (-1)))).light = false ∧
    (resolvedSend (initState .COOLIX 1 true .kCool 25 true .kAuto .kAuto .kOff
        false true false true false true false 0 (-1))
      (some (initState .COOLIX 1 true .kCool 25 true .kAuto .kAuto .kOff
        false true false true false true false 0 (-1)))).clean = false ∧
    (resolvedSend (initState .COOLIX 1 true .kCool 25 true .kAuto .kAuto .kOff
        false true false true false true false 0 (-1))
      (some (initState .COOLIX 1 true .kCool 25 true .kAuto .kAuto .kOff
        false true false true false true false 0 (-1)))).sleep = -1 ∧
    (resolvedSend (initState .COOLIX 1 true .kCool 25 true .kAuto .kAuto .kOff
        false true false true false true false 0 (-1))
      (some (initState .COOLIX 1 true .kCool 25 true .kAuto .kAuto .kOff
        false true false true false true false 0 (-1)))).swingv = swingv_t.kOff :=
  (sendAcFlat_toggles_neutral .COOLIX 1 true .kCool 25 true .kAuto .kAuto .kOff
    false true false true false true false 0 (-1) (by decide) _ rfl _ rfl).1
    (Or.inl rfl)

end IRacSpec
